import Mathlib

/-!
Verification of the media ingestion pipeline of
`learn-file-storage-s3-golang-starter` (`handler_upload_video.go`).

Go strings are embedded as `List Char` (called `GoStr`), Go byte slices as
`List Nat` with elements `< 256`, and the `float64` aspect-ratio arithmetic
as exact rational arithmetic over `ℚ` (the spec describes the ratio as a
real number; the decimal literals `1.7`, `1.85`, `0.5`, `0.6` become the
rationals `17/10`, `37/20`, `1/2`, `3/5`).

The fallible external collaborators (JWT validation, the metadata store,
`ffmpeg`/`ffprobe`, S3, and the presigner) are modelled by an environment
`Env` that fixes the outcome of each external call; the handler
`handlerUploadVideo` is a pure function of that environment which returns
its HTTP-level outcome together with a trace of the side effects the Go
code performs (temporary-file creation/removal, object-store puts, and
metadata writes), in program order.  Deferred `os.Remove` calls run at
every function exit, including panic unwinding, exactly as Go's `defer`
does.
-/

/-- Go strings, embedded as lists of characters. -/
abbrev GoStr := List Char

/-! ## Geometry classifier (`getVideoAspectRatio`, lines 157–189) -/

/-- Result of `getVideoAspectRatio`: Go returns `(string, error)`, and an
out-of-range slice index panics.  `ok s` is a nil-error return of `s`,
`err` a non-nil error return, `crash` a runtime panic. -/
inductive AspectResult where
  | ok (s : GoStr)
  | err
  | crash
deriving DecidableEq

/-- Exact rational value of `float64(width) / float64(height)`
(line 178). -/
def ratioOf (w h : Int) : ℚ := (w : ℚ) / (h : ℚ)

/-- Classification of one stream's dimensions, lines 178–188 of
`handler_upload_video.go`: `>= 1.7 && <= 1.85` yields `"16:9"`,
`>= 0.5 && <= 0.6` yields `"9:16"`, anything else `"other"`. -/
def classifyStream (w h : Int) : GoStr :=
  if (17/10 : ℚ) ≤ ratioOf w h ∧ ratioOf w h ≤ 37/20 then "16:9".toList
  else if (1/2 : ℚ) ≤ ratioOf w h ∧ ratioOf w h ≤ 3/5 then "9:16".toList
  else "other".toList

/-- Lines 157–189.  `ffprobeOk` is the outcome of `cmd.Run()`,
`decodeOk` the outcome of JSON decoding, and `streams` the decoded
`(width, height)` list.  Line 177 evaluates `output.Streams[0]` with no
emptiness check, so an empty stream list panics (`crash`), it is not
returned as an error. -/
def getVideoAspectRatio (ffprobeOk : Bool) (decodeOk : Bool)
    (streams : List (Int × Int)) : AspectResult :=
  if ffprobeOk = false then .err
  else if decodeOk = false then .err
  else
    match streams with
    | [] => .crash
    | (w, h) :: _ => .ok (classifyStream w h)

/-- Lines 118–124: the `switch` mapping `"16:9"` to `"landscape"`,
`"9:16"` to `"portrait"`, and everything else to the initial value
`"other"`. -/
def categoryOf (ar : GoStr) : GoStr :=
  if ar = "16:9".toList then "landscape".toList
  else if ar = "9:16".toList then "portrait".toList
  else "other".toList

/-- End-to-end geometry category of a `(width, height)` pair: the
composition of the classifier (lines 178–188) with the handler's `switch`
(lines 118–124). -/
def geometryCategory (w h : Int) : GoStr :=
  categoryOf (classifyStream w h)

/-! ## Key derivation (lines 109–126): `crypto/rand` bytes and Go's
`base64.URLEncoding` -/

/-- Length of the `make([]byte, 32)` buffer filled from `crypto/rand`
(line 109). -/
def randBytesLen : Nat := 32

/-- The 64-character alphabet of Go's `base64.URLEncoding`
(RFC 4648 URL-safe). -/
def b64Alphabet : List Char :=
  "ABCDEFGHIJKLMNOPQRSTUVWXYZabcdefghijklmnopqrstuvwxyz0123456789-_".toList

/-- Character for a 6-bit group. -/
def b64Char (n : Nat) : Char := b64Alphabet.getD n 'A'

/-- Index of a character in the base64url alphabet (left inverse of
`b64Char` below 64). -/
def b64Val (c : Char) : Nat := b64Alphabet.indexOf c

/-- Go's `base64.URLEncoding.EncodeToString`: 3-byte groups become 4
alphabet characters; a 2-byte (resp. 1-byte) tail becomes 3 (resp. 2)
characters plus `'='` padding. -/
def base64urlEncode : List Nat → List Char
  | a :: b :: c :: rest =>
      b64Char (a / 4) :: b64Char (a % 4 * 16 + b / 16) ::
      b64Char (b % 16 * 4 + c / 64) :: b64Char (c % 64) :: base64urlEncode rest
  | [a, b] => [b64Char (a / 4), b64Char (a % 4 * 16 + b / 16), b64Char (b % 16 * 4), '=']
  | [a] => [b64Char (a / 4), b64Char (a % 4 * 16), '=', '=']
  | [] => []
termination_by structural l => l

/-- Base64url decoding, used only as a left inverse witnessing that the
encoding loses no information. -/
def base64urlDecode : List Char → List Nat
  | c1 :: c2 :: c3 :: c4 :: rest =>
      if c3 = '=' then [b64Val c1 * 4 + b64Val c2 / 16]
      else if c4 = '=' then
        [b64Val c1 * 4 + b64Val c2 / 16, b64Val c2 % 16 * 16 + b64Val c3 / 4]
      else
        (b64Val c1 * 4 + b64Val c2 / 16) ::
        (b64Val c2 % 16 * 16 + b64Val c3 / 4) ::
        (b64Val c3 % 4 * 64 + b64Val c4) :: base64urlDecode rest
  | _ => []
termination_by structural l => l

/-- Line 126: `fmt.Sprintf("%s/%s.mp4", aspectRatioPrefix,
base64.URLEncoding.EncodeToString(randBytes))`. -/
def mkFileKey (categ : GoStr) (randBytes : List Nat) : GoStr :=
  categ ++ '/' :: (base64urlEncode randBytes ++ ".mp4".toList)

/-! ## Stored pointer (line 139) and its decoding (lines 217–239) -/

/-- Line 139: `fmt.Sprintf("%s,%s", cfg.s3Bucket, fileKey)`. -/
def encodePointer (bucket key : GoStr) : GoStr := bucket ++ ',' :: key

/-- Go's `strings.Split(s, ",")` for the one-character separator:
splits around every comma; `n` commas yield `n + 1` pieces. -/
def splitComma : GoStr → List GoStr
  | [] => [[]]
  | c :: rest =>
    if c = ',' then [] :: splitComma rest
    else
      match splitComma rest with
      | [] => [[c]]
      | h :: t => (c :: h) :: t

/-- The fields of `database.Video` that the pipeline reads or writes. -/
structure Video where
  id : Nat
  userID : Nat
  videoURL : Option GoStr
deriving DecidableEq

/-- Lines 217–239.  `signer bucket key` models
`generatePresignedURL(cfg.s3Client, bucket, key, time.Hour)`: `some u`
is a successful presign returning URL `u`, `none` a presign error.  The
returned `Bool` is `true` exactly when the Go function returns a non-nil
error. -/
def dbVideoToSignedVideo (signer : GoStr → GoStr → Option GoStr)
    (video : Video) : Video × Bool :=
  match video.videoURL with
  | none => (video, false)
  | some url =>
    if (splitComma url).length = 2 then
      match signer ((splitComma url).getD 0 []) ((splitComma url).getD 1 []) with
      | none => (video, true)
      | some presignedUrl => ({ video with videoURL := some presignedUrl }, false)
    else (video, false)

/-! ## Ingestion orchestrator (`handlerUploadVideo`, lines 26–155) -/

/-- Line 140: `video.VideoURL = &videoUrl`. -/
def setVideoURL (v : Video) (u : GoStr) : Video :=
  { v with videoURL := some u }

/-- Line 27: `const maxMemory = 1 >> 30`.  Note the Go source uses a
right shift, so this constant evaluates to `0`, not to the `1 GB` its
comment announces; and the `http.MaxBytesReader` wrapper built from it on
line 28 is discarded, so the handler never limits the request body. -/
def maxMemory : Nat := 1 >>> 30

/-- Lines 191–201: run `ffmpeg` writing `filePath + ".processing"`.
`rewriteOk` is the outcome of `cmd.Run()`; on success the output path is
returned, on failure `("", err)`. -/
def processVideoForFastStart (rewriteOk : Bool) (filePath : GoStr) : Option GoStr :=
  if rewriteOk then some (filePath ++ ".processing".toList) else none

/-- Observable side effects of one handler run, in program order:
temporary-file creation and removal, `PutObject` calls (successful or
failed), and `db.UpdateVideo` calls. -/
inductive Ev where
  | createTemp (name : GoStr)
  | removeTemp (name : GoStr)
  | putOk (bucket key : GoStr)
  | putFail (bucket key : GoStr)
  | dbUpdate (url : GoStr)
deriving DecidableEq

/-- HTTP-level outcome of one handler run: a 200 response carrying the
signed video, an error response with its status code, or a Go panic. -/
inductive HResult where
  | ok (v : Video)
  | responded (status : Nat)
  | crashed
deriving DecidableEq

/-- The `apiConfig` fields the pipeline reads. -/
structure Cfg where
  s3Bucket : GoStr

/-- Outcomes of every external call one request can make, fixed up
front.  A field `fooOk = false` means that call returns a non-nil error.
`bodySize` is the size of the request body; `copyOk` is the outcome of
`io.Copy` on line 91, whose error the Go code discards. -/
structure Env where
  bodySize : Nat
  videoIDOk : Bool
  tokenOk : Bool
  jwtOk : Bool
  userID : Nat
  getVideoOk : Bool
  video : Video
  formFileOk : Bool
  contentHeader : GoStr
  parsedMediaType : Option GoStr
  createTempOk : Bool
  tempName : GoStr
  copyOk : Bool
  rewriteOk : Bool
  openProcessedOk : Bool
  randBytes : List Nat
  ffprobeOk : Bool
  jsonDecodeOk : Bool
  streams : List (Int × Int)
  putObjectOk : Bool
  updateVideoOk : Bool
  signer : GoStr → GoStr → Option GoStr

/-- Lines 26–155, step by step.  Every early `return` after line 89
first runs the deferred `os.Remove` calls in last-in-first-out order
(Go runs deferred calls on every exit, panics included), which is why
each returned trace ends with its `removeTemp` events.  The discarded
`io.Copy` error (`env.copyOk`) and the discarded body-size limiter
(`env.bodySize`, line 28) are fields of `Env` that the body, like the Go
code, never consults. -/
def handlerUploadVideo (cfg : Cfg) (env : Env) : HResult × List Ev :=
  if env.videoIDOk = false then (.responded 400, [])
  else if env.tokenOk = false then (.responded 401, [])
  else if env.jwtOk = false then (.responded 401, [])
  else if env.getVideoOk = false then (.responded 500, [])
  else if env.video.userID ≠ env.userID then (.responded 401, [])
  else if env.formFileOk = false then (.responded 400, [])
  else if env.contentHeader = [] then (.responded 400, [])
  else
    match env.parsedMediaType with
    | none => (.responded 400, [])
    | some mediaType =>
      if mediaType ≠ "video/mp4".toList then (.responded 400, [])
      else if env.createTempOk = false then (.responded 500, [])
      else
        match processVideoForFastStart env.rewriteOk env.tempName with
        | none =>
          (.responded 500, [.createTemp env.tempName, .removeTemp env.tempName])
        | some processedFilePath =>
          if env.openProcessedOk = false then
            (.responded 500,
              [.createTemp env.tempName, .createTemp processedFilePath,
               .removeTemp processedFilePath, .removeTemp env.tempName])
          else
            match getVideoAspectRatio env.ffprobeOk env.jsonDecodeOk env.streams with
            | .err =>
              (.responded 500,
                [.createTemp env.tempName, .createTemp processedFilePath,
                 .removeTemp processedFilePath, .removeTemp env.tempName])
            | .crash =>
              (.crashed,
                [.createTemp env.tempName, .createTemp processedFilePath,
                 .removeTemp processedFilePath, .removeTemp env.tempName])
            | .ok ar =>
              if env.putObjectOk = false then
                (.responded 500,
                  [.createTemp env.tempName, .createTemp processedFilePath,
                   .putFail cfg.s3Bucket (mkFileKey (categoryOf ar) env.randBytes),
                   .removeTemp processedFilePath, .removeTemp env.tempName])
              else
                if env.updateVideoOk = false then
                  (.responded 500,
                    [.createTemp env.tempName, .createTemp processedFilePath,
                     .putOk cfg.s3Bucket (mkFileKey (categoryOf ar) env.randBytes),
                     .dbUpdate (encodePointer cfg.s3Bucket (mkFileKey (categoryOf ar) env.randBytes)),
                     .removeTemp processedFilePath, .removeTemp env.tempName])
                else
                  match dbVideoToSignedVideo env.signer
                      (setVideoURL env.video
                        (encodePointer cfg.s3Bucket (mkFileKey (categoryOf ar) env.randBytes))) with
                  | (_, true) =>
                    (.responded 500,
                      [.createTemp env.tempName, .createTemp processedFilePath,
                       .putOk cfg.s3Bucket (mkFileKey (categoryOf ar) env.randBytes),
                       .dbUpdate (encodePointer cfg.s3Bucket (mkFileKey (categoryOf ar) env.randBytes)),
                       .removeTemp processedFilePath, .removeTemp env.tempName])
                  | (signedVideo, false) =>
                    (.ok signedVideo,
                      [.createTemp env.tempName, .createTemp processedFilePath,
                       .putOk cfg.s3Bucket (mkFileKey (categoryOf ar) env.randBytes),
                       .dbUpdate (encodePointer cfg.s3Bucket (mkFileKey (categoryOf ar) env.randBytes)),
                       .removeTemp processedFilePath, .removeTemp env.tempName])

/-- Names of the temporary files created during a run, in creation
order. -/
def createdNames (tr : List Ev) : List GoStr :=
  tr.filterMap fun e =>
    match e with
    | .createTemp n => some n
    | _ => none

/-- Names of the temporary files removed during a run, in removal
order. -/
def removedNames (tr : List Ev) : List GoStr :=
  tr.filterMap fun e =>
    match e with
    | .removeTemp n => some n
    | _ => none

/-- Scans a trace left to right and checks that every metadata write
(`dbUpdate`) is strictly preceded by a successful object-store upload
(`putOk`).  `seenPut` records whether a `putOk` has occurred yet. -/
def pointerAfterUpload (seenPut : Bool) : List Ev → Bool
  | [] => true
  | .putOk _ _ :: rest => pointerAfterUpload true rest
  | .dbUpdate _ :: rest => seenPut && pointerAfterUpload seenPut rest
  | _ :: rest => pointerAfterUpload seenPut rest

/-- Whether a trace contains any `PutObject` call (successful or not). -/
def hasPut (tr : List Ev) : Bool :=
  tr.any fun e =>
    match e with
    | .putOk _ _ => true
    | .putFail _ _ => true
    | _ => false

/-- Whether a trace contains any `db.UpdateVideo` call. -/
def hasDbUpdate (tr : List Ev) : Bool :=
  tr.any fun e =>
    match e with
    | .dbUpdate _ => true
    | _ => false

/-! ## Helper lemmas: base64url encoding -/

theorem b64Val_b64Char : ∀ n, n < 64 → b64Val (b64Char n) = n := by decide

theorem b64Char_ne_pad : ∀ n, n < 64 → b64Char n ≠ '=' := by decide

theorem b64Char_mem_alphabet : ∀ n, b64Char n ∈ b64Alphabet := by
  intro n
  unfold b64Char
  rcases Nat.lt_or_ge n b64Alphabet.length with h | h
  · rw [b64Alphabet.getD_eq_getElem 'A' h]
    exact List.getElem_mem h
  · rw [List.getD_eq_default _ _ h]
    decide

theorem b64_decode_encode : ∀ l : List Nat, (∀ x ∈ l, x < 256) →
    base64urlDecode (base64urlEncode l) = l := by
  intro l
  induction l using base64urlEncode.induct with
  | case1 a b c rest ih =>
    intro h
    have ha : a < 256 := h a (by simp)
    have hb : b < 256 := h b (by simp)
    have hc : c < 256 := h c (by simp)
    have h3 : b % 16 * 4 + c / 64 < 64 := by omega
    have h4 : c % 64 < 64 := by omega
    simp only [base64urlEncode, base64urlDecode,
      if_neg (b64Char_ne_pad _ h3), if_neg (b64Char_ne_pad _ h4)]
    rw [b64Val_b64Char _ (by omega), b64Val_b64Char _ (by omega),
      b64Val_b64Char _ h3, b64Val_b64Char _ h4]
    have htail := ih (fun x hx => h x (by simp [hx]))
    simp only [List.cons.injEq]
    refine ⟨by omega, by omega, by omega, htail⟩
  | case2 a b =>
    intro h
    have ha : a < 256 := h a (by simp)
    have hb : b < 256 := h b (by simp)
    have h3 : b % 16 * 4 < 64 := by omega
    simp only [base64urlEncode]
    rw [base64urlDecode, if_neg (b64Char_ne_pad _ h3), if_pos rfl]
    rw [b64Val_b64Char _ (by omega), b64Val_b64Char _ (by omega), b64Val_b64Char _ h3]
    simp only [List.cons.injEq]
    refine ⟨by omega, by omega, trivial⟩
  | case3 a =>
    intro h
    have ha : a < 256 := h a (by simp)
    simp only [base64urlEncode]
    rw [base64urlDecode, if_pos rfl]
    rw [b64Val_b64Char _ (by omega), b64Val_b64Char _ (by omega)]
    simp only [List.cons.injEq]
    exact ⟨by omega, trivial⟩
  | case4 =>
    intro _
    simp [base64urlEncode, base64urlDecode]

theorem base64urlEncode_injOn {b1 b2 : List Nat}
    (h1 : ∀ x ∈ b1, x < 256) (h2 : ∀ x ∈ b2, x < 256)
    (he : base64urlEncode b1 = base64urlEncode b2) : b1 = b2 := by
  have := congrArg base64urlDecode he
  rwa [b64_decode_encode b1 h1, b64_decode_encode b2 h2] at this

theorem base64urlEncode_chars : ∀ l : List Nat,
    ∀ c ∈ base64urlEncode l, c ∈ b64Alphabet ∨ c = '=' := by
  intro l
  induction l using base64urlEncode.induct with
  | case1 a b c rest ih =>
    intro x hx
    simp only [base64urlEncode, List.mem_cons] at hx
    rcases hx with h | h | h | h | h
    · exact Or.inl (h ▸ b64Char_mem_alphabet _)
    · exact Or.inl (h ▸ b64Char_mem_alphabet _)
    · exact Or.inl (h ▸ b64Char_mem_alphabet _)
    · exact Or.inl (h ▸ b64Char_mem_alphabet _)
    · exact ih x h
  | case2 a b =>
    intro x hx
    simp only [base64urlEncode, List.mem_cons, List.not_mem_nil, or_false] at hx
    rcases hx with h | h | h | h
    · exact Or.inl (h ▸ b64Char_mem_alphabet _)
    · exact Or.inl (h ▸ b64Char_mem_alphabet _)
    · exact Or.inl (h ▸ b64Char_mem_alphabet _)
    · exact Or.inr h
  | case3 a =>
    intro x hx
    simp only [base64urlEncode, List.mem_cons, List.not_mem_nil, or_false] at hx
    rcases hx with h | h | h | h
    · exact Or.inl (h ▸ b64Char_mem_alphabet _)
    · exact Or.inl (h ▸ b64Char_mem_alphabet _)
    · exact Or.inr h
    · exact Or.inr h
  | case4 =>
    intro x hx
    simp [base64urlEncode] at hx

/-! ## Helper lemmas: comma splitting -/

theorem splitComma_no_comma : ∀ l : GoStr, ',' ∉ l → splitComma l = [l] := by
  intro l
  induction l with
  | nil => intro _; rfl
  | cons c rest ih =>
    intro h
    have hc : c ≠ ',' := fun he => h (he ▸ List.mem_cons_self c rest)
    have hr : ',' ∉ rest := fun hm => h (List.mem_cons_of_mem c hm)
    rw [splitComma, if_neg hc, ih hr]

theorem splitComma_encodePointer (b k : GoStr) (hb : ',' ∉ b) (hk : ',' ∉ k) :
    splitComma (encodePointer b k) = [b, k] := by
  induction b with
  | nil =>
    unfold encodePointer
    rw [List.nil_append, splitComma, if_pos rfl, splitComma_no_comma k hk]
  | cons c rest ih =>
    have hc : c ≠ ',' := fun he => hb (he ▸ List.mem_cons_self c rest)
    have hr : ',' ∉ rest := fun hm => hb (List.mem_cons_of_mem c hm)
    have ih' := ih hr
    unfold encodePointer at ih' ⊢
    rw [List.cons_append, splitComma, if_neg hc, ih']

/-! ## Claims -/

/-- C1: for every `(width, height)` pair with `height > 0` the geometry
classifier computes `ratio = width / height` as a real number and returns
exactly one category: `landscape` iff the ratio lies in the inclusive
interval `[1.70, 1.85]`, `portrait` iff it lies in `[0.50, 0.60]`, and
`other` iff it lies in neither; moreover ratio `1.778` maps to
`landscape`, `0.5625` to `portrait`, and `1.0` to `other`.  Determinism
holds because `geometryCategory` is a function of `(width, height)`. -/
theorem claim_C1_geometry_classifier_total :
    (∀ w h : Int, 0 < h →
      ((geometryCategory w h = "landscape".toList ↔
          (17/10 : ℚ) ≤ ratioOf w h ∧ ratioOf w h ≤ 37/20) ∧
       (geometryCategory w h = "portrait".toList ↔
          (1/2 : ℚ) ≤ ratioOf w h ∧ ratioOf w h ≤ 3/5) ∧
       (geometryCategory w h = "other".toList ↔
          ¬((17/10 : ℚ) ≤ ratioOf w h ∧ ratioOf w h ≤ 37/20) ∧
          ¬((1/2 : ℚ) ≤ ratioOf w h ∧ ratioOf w h ≤ 3/5)) ∧
       (geometryCategory w h = "landscape".toList ∨
        geometryCategory w h = "portrait".toList ∨
        geometryCategory w h = "other".toList))) ∧
    geometryCategory 1778 1000 = "landscape".toList ∧
    geometryCategory 9 16 = "portrait".toList ∧
    geometryCategory 1 1 = "other".toList := by
  have c169 : categoryOf ("16:9".toList) = "landscape".toList := by decide
  have c916 : categoryOf ("9:16".toList) = "portrait".toList := by decide
  have cOth : categoryOf ("other".toList) = "other".toList := by decide
  have neLP : "landscape".toList ≠ "portrait".toList := by decide
  have neLO : "landscape".toList ≠ "other".toList := by decide
  have nePO : "portrait".toList ≠ "other".toList := by decide
  have rL : (17/10 : ℚ) ≤ ratioOf 1778 1000 ∧ ratioOf 1778 1000 ≤ 37/20 := by
    unfold ratioOf
    norm_num
  have rPnL : ¬((17/10 : ℚ) ≤ ratioOf 9 16 ∧ ratioOf 9 16 ≤ 37/20) := by
    intro hc
    have := hc.1
    unfold ratioOf at this
    norm_num at this
  have rP : (1/2 : ℚ) ≤ ratioOf 9 16 ∧ ratioOf 9 16 ≤ 3/5 := by
    unfold ratioOf
    norm_num
  have rOnL : ¬((17/10 : ℚ) ≤ ratioOf 1 1 ∧ ratioOf 1 1 ≤ 37/20) := by
    intro hc
    have := hc.1
    unfold ratioOf at this
    norm_num at this
  have rOnP : ¬((1/2 : ℚ) ≤ ratioOf 1 1 ∧ ratioOf 1 1 ≤ 3/5) := by
    intro hc
    have := hc.2
    unfold ratioOf at this
    norm_num at this
  refine ⟨?_,
    by unfold geometryCategory classifyStream; rw [if_pos rL, c169],
    by unfold geometryCategory classifyStream; rw [if_neg rPnL, if_pos rP, c916],
    by unfold geometryCategory classifyStream; rw [if_neg rOnL, if_neg rOnP, cOth]⟩
  intro w h _
  by_cases hL : (17/10 : ℚ) ≤ ratioOf w h ∧ ratioOf w h ≤ 37/20
  · have hcat : geometryCategory w h = "landscape".toList := by
      unfold geometryCategory classifyStream
      rw [if_pos hL, c169]
    have hnP : ¬((1/2 : ℚ) ≤ ratioOf w h ∧ ratioOf w h ≤ 3/5) := by
      intro hP
      have h1 := hL.1
      have h2 := hP.2
      linarith
    exact ⟨⟨fun _ => hL, fun _ => hcat⟩,
      ⟨fun he => absurd (hcat.symm.trans he) neLP, fun hP => absurd hP hnP⟩,
      ⟨fun he => absurd (hcat.symm.trans he) neLO, fun hb => absurd hL hb.1⟩,
      Or.inl hcat⟩
  · by_cases hP : (1/2 : ℚ) ≤ ratioOf w h ∧ ratioOf w h ≤ 3/5
    · have hcat : geometryCategory w h = "portrait".toList := by
        unfold geometryCategory classifyStream
        rw [if_neg hL, if_pos hP, c916]
      exact ⟨⟨fun he => absurd (hcat.symm.trans he) (Ne.symm neLP), fun hLc => absurd hLc hL⟩,
        ⟨fun _ => hP, fun _ => hcat⟩,
        ⟨fun he => absurd (hcat.symm.trans he) nePO, fun hb => absurd hP hb.2⟩,
        Or.inr (Or.inl hcat)⟩
    · have hcat : geometryCategory w h = "other".toList := by
        unfold geometryCategory classifyStream
        rw [if_neg hL, if_neg hP, cOth]
      exact ⟨⟨fun he => absurd (hcat.symm.trans he) (Ne.symm neLO), fun hLc => absurd hLc hL⟩,
        ⟨fun he => absurd (hcat.symm.trans he) (Ne.symm nePO), fun hPc => absurd hPc hP⟩,
        ⟨fun _ => ⟨hL, hP⟩, fun _ => hcat⟩,
        Or.inr (Or.inr hcat)⟩

/-- Witness for C1 at the spec's scenario input `1920 × 1080`
(ratio `1.778`, rounded): the hypothesis `0 < 1080` is discharged and the
classifier lands in exactly one of the three categories. -/
theorem claim_C1_geometry_classifier_total_witness :
    0 < (1080 : Int) ∧
    (geometryCategory 1920 1080 = "landscape".toList ∨
     geometryCategory 1920 1080 = "portrait".toList ∨
     geometryCategory 1920 1080 = "other".toList) :=
  ⟨by norm_num, (claim_C1_geometry_classifier_total.1 1920 1080 (by norm_num)).2.2.2⟩

/-! ## Concrete test fixtures -/

/-- A concrete `apiConfig`. -/
def cfgTest : Cfg := { s3Bucket := "tubely-bucket".toList }

/-- Environment in which every external call succeeds: a `1920 × 1080`
mp4 upload by its owner. -/
def envAllOk : Env where
  bodySize := 0
  videoIDOk := true
  tokenOk := true
  jwtOk := true
  userID := 7
  getVideoOk := true
  video := { id := 1, userID := 7, videoURL := none }
  formFileOk := true
  contentHeader := "video/mp4".toList
  parsedMediaType := some ("video/mp4".toList)
  createTempOk := true
  tempName := "tubley-upload.mp4".toList
  copyOk := true
  rewriteOk := true
  openProcessedOk := true
  randBytes := List.replicate 32 0
  ffprobeOk := true
  jsonDecodeOk := true
  streams := [(1920, 1080)]
  putObjectOk := true
  updateVideoOk := true
  signer := fun _ _ => some ("signed-url".toList)

/-- The storage key derived in `envAllOk`. -/
def keyTest : GoStr := mkFileKey ("landscape".toList) (List.replicate 32 0)

theorem classifyStream_1920_1080 : classifyStream 1920 1080 = "16:9".toList := by
  have hcond : (17/10 : ℚ) ≤ ratioOf 1920 1080 ∧ ratioOf 1920 1080 ≤ 37/20 := by
    unfold ratioOf
    norm_num
  unfold classifyStream
  rw [if_pos hcond]

theorem aspect_1920_1080 :
    getVideoAspectRatio true true [(1920, 1080)] = .ok ("16:9".toList) := by
  unfold getVideoAspectRatio
  simp [classifyStream_1920_1080]

/-- Full evaluation of the handler in the all-success environment. -/
theorem handlerUploadVideo_envAllOk :
    handlerUploadVideo cfgTest envAllOk =
      (.ok { id := 1, userID := 7, videoURL := some ("signed-url".toList) },
       [.createTemp ("tubley-upload.mp4".toList),
        .createTemp ("tubley-upload.mp4.processing".toList),
        .putOk ("tubely-bucket".toList) keyTest,
        .dbUpdate (encodePointer ("tubely-bucket".toList) keyTest),
        .removeTemp ("tubley-upload.mp4.processing".toList),
        .removeTemp ("tubley-upload.mp4".toList)]) := by
  simp only [handlerUploadVideo, envAllOk, cfgTest, aspect_1920_1080, keyTest]
  decide

/-- C2: the claim says an empty stream list yields a fatal input error
(a `ProcessingError`) and the classifier never reads past the empty
list.  The code instead evaluates `output.Streams[0]` (line 177) with no
emptiness check: on `{"streams": []}` it panics with an index
out-of-range, so the run crashes rather than returning an error
response.  This refutes the claim at the concrete input and exhibits the
code/spec divergence. -/
theorem claim_C2_empty_stream_list_panics :
    getVideoAspectRatio true true [] = AspectResult.crash ∧
    getVideoAspectRatio true true [] ≠ AspectResult.err ∧
    (handlerUploadVideo cfgTest { envAllOk with streams := [] }).1 = HResult.crashed := by
  refine ⟨rfl, by decide, ?_⟩
  decide

/-- C3: the claim says the orchestrator enforces a request-body size
ceiling as its first step.  The code computes `const maxMemory = 1 >> 30`,
which is `0` (the comment claims 1 GB, i.e. `2^30`), and discards the
`http.MaxBytesReader` return value, so the body size never influences
execution: the handler result is independent of `bodySize`, and an
upload whose body exceeds the advertised 1 GB ceiling still runs the
whole pipeline to success. -/
theorem claim_C3_size_ceiling_not_enforced :
    maxMemory = 0 ∧
    maxMemory ≠ 2 ^ 30 ∧
    (∀ cfg env n, handlerUploadVideo cfg { env with bodySize := n } = handlerUploadVideo cfg env) ∧
    (handlerUploadVideo cfgTest { envAllOk with bodySize := 2 ^ 30 + 1 }).1 =
      HResult.ok { id := 1, userID := 7, videoURL := some ("signed-url".toList) } := by
  refine ⟨rfl, by decide, fun cfg env n => rfl, ?_⟩
  have h : handlerUploadVideo cfgTest { envAllOk with bodySize := 2 ^ 30 + 1 } =
      handlerUploadVideo cfgTest envAllOk := rfl
  rw [h, handlerUploadVideo_envAllOk]

/-- C6: the claim says a failed copy into the staged file aborts the
pipeline before rewrite, classification, upload and pointer write.  The
code discards both return values of `io.Copy` (line 91), so the handler
is entirely insensitive to the copy outcome, and in a run whose copy
fails every later step still executes: the rewritten temp file is
created, the object is uploaded, the pointer is written, and the request
succeeds. -/
theorem claim_C6_copy_failure_not_gated :
    (∀ cfg env b, handlerUploadVideo cfg { env with copyOk := b } = handlerUploadVideo cfg env) ∧
    (handlerUploadVideo cfgTest { envAllOk with copyOk := false }).1 =
      HResult.ok { id := 1, userID := 7, videoURL := some ("signed-url".toList) } ∧
    Ev.createTemp ("tubley-upload.mp4.processing".toList) ∈
      (handlerUploadVideo cfgTest { envAllOk with copyOk := false }).2 ∧
    Ev.putOk ("tubely-bucket".toList) keyTest ∈
      (handlerUploadVideo cfgTest { envAllOk with copyOk := false }).2 ∧
    Ev.dbUpdate (encodePointer ("tubely-bucket".toList) keyTest) ∈
      (handlerUploadVideo cfgTest { envAllOk with copyOk := false }).2 := by
  have h : handlerUploadVideo cfgTest { envAllOk with copyOk := false } =
      handlerUploadVideo cfgTest envAllOk := rfl
  refine ⟨fun cfg env b => rfl, ?_, ?_, ?_, ?_⟩ <;>
    rw [h, handlerUploadVideo_envAllOk] <;> simp

/-- Exhaustive enumeration of the five possible side-effect trace shapes
of one handler run: rejection before staging (empty trace), failure of
the container rewrite, failure between rewrite and upload, a failed
upload, and a reached metadata write; only the last can respond 200. -/
theorem handler_shapes (cfg : Cfg) (env : Env) :
    ((handlerUploadVideo cfg env).2 = [] ∧
      ∀ v, (handlerUploadVideo cfg env).1 ≠ HResult.ok v) ∨
    ((handlerUploadVideo cfg env).2 =
        [.createTemp env.tempName, .removeTemp env.tempName] ∧
      ∀ v, (handlerUploadVideo cfg env).1 ≠ HResult.ok v) ∨
    (∃ p, (handlerUploadVideo cfg env).2 =
        [.createTemp env.tempName, .createTemp p, .removeTemp p, .removeTemp env.tempName] ∧
      ∀ v, (handlerUploadVideo cfg env).1 ≠ HResult.ok v) ∨
    (∃ p b k, (handlerUploadVideo cfg env).2 =
        [.createTemp env.tempName, .createTemp p, .putFail b k,
         .removeTemp p, .removeTemp env.tempName] ∧
      ∀ v, (handlerUploadVideo cfg env).1 ≠ HResult.ok v) ∨
    (∃ p b k u, (handlerUploadVideo cfg env).2 =
        [.createTemp env.tempName, .createTemp p, .putOk b k, .dbUpdate u,
         .removeTemp p, .removeTemp env.tempName]) := by
  unfold handlerUploadVideo
  by_cases h1 : env.videoIDOk = false
  · rw [if_pos h1]
    exact Or.inl ⟨rfl, fun v h => by cases h⟩
  rw [if_neg h1]
  by_cases h2 : env.tokenOk = false
  · rw [if_pos h2]
    exact Or.inl ⟨rfl, fun v h => by cases h⟩
  rw [if_neg h2]
  by_cases h3 : env.jwtOk = false
  · rw [if_pos h3]
    exact Or.inl ⟨rfl, fun v h => by cases h⟩
  rw [if_neg h3]
  by_cases h4 : env.getVideoOk = false
  · rw [if_pos h4]
    exact Or.inl ⟨rfl, fun v h => by cases h⟩
  rw [if_neg h4]
  by_cases h5 : env.video.userID ≠ env.userID
  · rw [if_pos h5]
    exact Or.inl ⟨rfl, fun v h => by cases h⟩
  rw [if_neg h5]
  by_cases h6 : env.formFileOk = false
  · rw [if_pos h6]
    exact Or.inl ⟨rfl, fun v h => by cases h⟩
  rw [if_neg h6]
  by_cases h7 : env.contentHeader = []
  · rw [if_pos h7]
    exact Or.inl ⟨rfl, fun v h => by cases h⟩
  rw [if_neg h7]
  cases hpm : env.parsedMediaType with
  | none => exact Or.inl ⟨rfl, fun v h => by cases h⟩
  | some mt =>
    dsimp only
    by_cases hmt : mt ≠ "video/mp4".toList
    · rw [if_pos hmt]
      exact Or.inl ⟨rfl, fun v h => by cases h⟩
    rw [if_neg hmt]
    by_cases h8 : env.createTempOk = false
    · rw [if_pos h8]
      exact Or.inl ⟨rfl, fun v h => by cases h⟩
    rw [if_neg h8]
    cases hfs : processVideoForFastStart env.rewriteOk env.tempName with
    | none => exact Or.inr (Or.inl ⟨rfl, fun v h => by cases h⟩)
    | some p =>
      dsimp only
      by_cases h9 : env.openProcessedOk = false
      · rw [if_pos h9]
        exact Or.inr (Or.inr (Or.inl ⟨p, rfl, fun v h => by cases h⟩))
      rw [if_neg h9]
      cases hga : getVideoAspectRatio env.ffprobeOk env.jsonDecodeOk env.streams with
      | err => exact Or.inr (Or.inr (Or.inl ⟨p, rfl, fun v h => by cases h⟩))
      | crash => exact Or.inr (Or.inr (Or.inl ⟨p, rfl, fun v h => by cases h⟩))
      | ok ar =>
        dsimp only
        by_cases h10 : env.putObjectOk = false
        · rw [if_pos h10]
          exact Or.inr (Or.inr (Or.inr (Or.inl ⟨p, _, _, rfl, fun v h => by cases h⟩)))
        rw [if_neg h10]
        by_cases h11 : env.updateVideoOk = false
        · rw [if_pos h11]
          exact Or.inr (Or.inr (Or.inr (Or.inr ⟨p, _, _, _, rfl⟩)))
        rw [if_neg h11]
        cases hdb : dbVideoToSignedVideo env.signer
            (setVideoURL env.video
              (encodePointer cfg.s3Bucket (mkFileKey (categoryOf ar) env.randBytes))) with
        | mk v2 b2 =>
          cases b2
          · exact Or.inr (Or.inr (Or.inr (Or.inr ⟨p, _, _, _, rfl⟩)))
          · exact Or.inr (Or.inr (Or.inr (Or.inr ⟨p, _, _, _, rfl⟩)))

/-- C4: in every execution, scanning the side-effect trace left to right,
a metadata write (`db.UpdateVideo`, line 142) occurs only strictly after
a successful object-store upload (`PutObject`, line 128): no trace writes
the pointer before, or without, a successful upload, so any earlier
failure leaves the stored pointer untouched. -/
theorem claim_C4_pointer_written_only_after_upload :
    ∀ cfg env, pointerAfterUpload false (handlerUploadVideo cfg env).2 = true := by
  intro cfg env
  rcases handler_shapes cfg env with ⟨ht, _⟩ | ⟨ht, _⟩ | ⟨p, ht, _⟩ | ⟨p, b, k, ht, _⟩ |
    ⟨p, b, k, u, ht⟩ <;> rw [ht] <;> rfl

/-- C5: on every exit path the multiset of temporary files created equals
the multiset removed before the handler returns, and on the success path
exactly two temporary files are created (the staged upload and the
rewritten file). -/
theorem claim_C5_temp_files_balanced :
    ∀ cfg env,
      (createdNames (handlerUploadVideo cfg env).2).Perm
        (removedNames (handlerUploadVideo cfg env).2) ∧
      (∀ v, (handlerUploadVideo cfg env).1 = HResult.ok v →
        (createdNames (handlerUploadVideo cfg env).2).length = 2) := by
  intro cfg env
  rcases handler_shapes cfg env with ⟨ht, hnok⟩ | ⟨ht, hnok⟩ | ⟨p, ht, hnok⟩ |
    ⟨p, b, k, ht, hnok⟩ | ⟨p, b, k, u, ht⟩
  · exact ⟨by rw [ht]; exact List.Perm.refl _, fun v hv => absurd hv (hnok v)⟩
  · exact ⟨by rw [ht]; exact List.Perm.refl _, fun v hv => absurd hv (hnok v)⟩
  · refine ⟨?_, fun v hv => absurd hv (hnok v)⟩
    rw [ht]
    exact List.Perm.swap _ _ _
  · refine ⟨?_, fun v hv => absurd hv (hnok v)⟩
    rw [ht]
    exact List.Perm.swap _ _ _
  · refine ⟨?_, fun v hv => ?_⟩
    · rw [ht]
      exact List.Perm.swap _ _ _
    · rw [ht]
      rfl

/-- Evaluation of the handler when the declared media type is rejected:
whatever the other gates do, the trace stays empty and the run never
responds 200; and when every earlier gate passes, the run is exactly a
400 rejection with no side effects. -/
theorem handler_bad_media_type (cfg : Cfg) (env : Env)
    (hbad : ∀ mt, env.parsedMediaType = some mt → mt ≠ "video/mp4".toList) :
    ((handlerUploadVideo cfg env).2 = [] ∧
      ∀ v, (handlerUploadVideo cfg env).1 ≠ HResult.ok v) ∧
    (env.videoIDOk = true → env.tokenOk = true → env.jwtOk = true →
      env.getVideoOk = true → env.video.userID = env.userID →
      env.formFileOk = true → env.contentHeader ≠ [] →
      handlerUploadVideo cfg env = (.responded 400, [])) := by
  unfold handlerUploadVideo
  by_cases h1 : env.videoIDOk = false
  · rw [if_pos h1]
    exact ⟨⟨rfl, fun v h => by cases h⟩,
      fun hv _ _ _ _ _ _ => by simp [hv] at h1⟩
  rw [if_neg h1]
  by_cases h2 : env.tokenOk = false
  · rw [if_pos h2]
    exact ⟨⟨rfl, fun v h => by cases h⟩,
      fun _ hv _ _ _ _ _ => by simp [hv] at h2⟩
  rw [if_neg h2]
  by_cases h3 : env.jwtOk = false
  · rw [if_pos h3]
    exact ⟨⟨rfl, fun v h => by cases h⟩,
      fun _ _ hv _ _ _ _ => by simp [hv] at h3⟩
  rw [if_neg h3]
  by_cases h4 : env.getVideoOk = false
  · rw [if_pos h4]
    exact ⟨⟨rfl, fun v h => by cases h⟩,
      fun _ _ _ hv _ _ _ => by simp [hv] at h4⟩
  rw [if_neg h4]
  by_cases h5 : env.video.userID ≠ env.userID
  · rw [if_pos h5]
    exact ⟨⟨rfl, fun v h => by cases h⟩,
      fun _ _ _ _ hv _ _ => absurd hv h5⟩
  rw [if_neg h5]
  by_cases h6 : env.formFileOk = false
  · rw [if_pos h6]
    exact ⟨⟨rfl, fun v h => by cases h⟩,
      fun _ _ _ _ _ hv _ => by simp [hv] at h6⟩
  rw [if_neg h6]
  by_cases h7 : env.contentHeader = []
  · rw [if_pos h7]
    exact ⟨⟨rfl, fun v h => by cases h⟩,
      fun _ _ _ _ _ _ hv => absurd h7 hv⟩
  rw [if_neg h7]
  cases hpm : env.parsedMediaType with
  | none => exact ⟨⟨rfl, fun v h => by cases h⟩, fun _ _ _ _ _ _ _ => rfl⟩
  | some mt =>
    dsimp only
    rw [if_pos (hbad mt hpm)]
    exact ⟨⟨rfl, fun v h => by cases h⟩, fun _ _ _ _ _ _ _ => rfl⟩

/-- C7: whenever the declared content type fails to parse (no parsed
media type) or parses to anything other than `video/mp4`, the run
creates no temporary file, performs no object-store call and no metadata
write, and never succeeds; moreover if all earlier gates pass, it is
rejected with the client error 400 and an empty side-effect trace
(lines 73–82 run before `os.CreateTemp` on line 84). -/
theorem claim_C7_media_type_gate :
    ∀ cfg env,
      (∀ mt, env.parsedMediaType = some mt → mt ≠ "video/mp4".toList) →
      (createdNames (handlerUploadVideo cfg env).2 = [] ∧
       hasPut (handlerUploadVideo cfg env).2 = false ∧
       hasDbUpdate (handlerUploadVideo cfg env).2 = false ∧
       (∀ v, (handlerUploadVideo cfg env).1 ≠ HResult.ok v)) ∧
      (env.videoIDOk = true → env.tokenOk = true → env.jwtOk = true →
        env.getVideoOk = true → env.video.userID = env.userID →
        env.formFileOk = true → env.contentHeader ≠ [] →
        handlerUploadVideo cfg env = (.responded 400, [])) := by
  intro cfg env hbad
  obtain ⟨⟨ht, hnok⟩, hgate⟩ := handler_bad_media_type cfg env hbad
  exact ⟨⟨by rw [ht]; rfl, by rw [ht]; rfl, by rw [ht]; rfl, hnok⟩, hgate⟩

/-- A rejected upload environment: everything is in order except that
the declared type parses to `video/webm`. -/
def envBadType : Env := { envAllOk with parsedMediaType := some ("video/webm".toList) }

/-- Witness for C7 at a concrete `video/webm` upload: the hypotheses are
satisfied and the run is a bare 400 rejection. -/
theorem claim_C7_media_type_gate_witness :
    createdNames (handlerUploadVideo cfgTest envBadType).2 = [] ∧
    handlerUploadVideo cfgTest envBadType = (.responded 400, []) := by
  have h := claim_C7_media_type_gate cfgTest envBadType
    (fun mt hmt => by
      simp only [envBadType] at hmt
      cases hmt
      decide)
  exact ⟨h.1.1, h.2 rfl rfl rfl rfl rfl rfl (by decide)⟩

/-- Witness for C5 at the all-success environment: the created and
removed temp-file multisets agree and the success path creates exactly
two temporary files. -/
theorem claim_C5_temp_files_balanced_witness :
    (createdNames (handlerUploadVideo cfgTest envAllOk).2).Perm
      (removedNames (handlerUploadVideo cfgTest envAllOk).2) ∧
    (createdNames (handlerUploadVideo cfgTest envAllOk).2).length = 2 :=
  ⟨(claim_C5_temp_files_balanced cfgTest envAllOk).1,
   (claim_C5_temp_files_balanced cfgTest envAllOk).2
     { id := 1, userID := 7, videoURL := some ("signed-url".toList) }
     (by rw [handlerUploadVideo_envAllOk])⟩

/-- C8: every storage key has the form `{category}/{random-id}.mp4`: the
buffer drawn from `crypto/rand` holds `32 · 8 = 256` bits, the random
identifier is its Go `base64.URLEncoding` encoding (URL-safe alphabet
`A–Z a–z 0–9 - _` plus `'='` padding), and the derivation is injective in
the drawn bytes, so two ingestions whose independent draws differ —
which happens with overwhelming probability — produce distinct keys even
for byte-identical uploads. -/
theorem claim_C8_storage_key_format_and_uniqueness :
    randBytesLen * 8 = 256 ∧
    ∀ (categ : GoStr) (b1 b2 : List Nat),
      b1.length = randBytesLen → b2.length = randBytesLen →
      (∀ x ∈ b1, x < 256) → (∀ x ∈ b2, x < 256) →
      ((∃ rid, mkFileKey categ b1 = categ ++ '/' :: (rid ++ ".mp4".toList) ∧
          ∀ c ∈ rid, c ∈ b64Alphabet ∨ c = '=') ∧
       (b1 ≠ b2 → mkFileKey categ b1 ≠ mkFileKey categ b2)) := by
  refine ⟨rfl, ?_⟩
  intro categ b1 b2 _ _ hv1 hv2
  refine ⟨⟨base64urlEncode b1, rfl, fun c hc => base64urlEncode_chars b1 c hc⟩, ?_⟩
  intro hne heq
  apply hne
  unfold mkFileKey at heq
  have h3 := List.append_cancel_left heq
  injection h3 with _ h4
  have h5 := List.append_cancel_right h4
  exact base64urlEncode_injOn hv1 hv2 h5

/-- A concrete 32-byte draw (all zeros). -/
def bytesA : List Nat := List.replicate 32 0

/-- A second, different 32-byte draw. -/
def bytesB : List Nat := 1 :: List.replicate 31 0

/-- Witness for C8 at two concrete 32-byte draws: the hypotheses hold,
the two keys differ, and the key has the contracted shape. -/
theorem claim_C8_storage_key_format_and_uniqueness_witness :
    mkFileKey ("landscape".toList) bytesA ≠ mkFileKey ("landscape".toList) bytesB ∧
    (∃ rid, mkFileKey ("landscape".toList) bytesA =
        "landscape".toList ++ '/' :: (rid ++ ".mp4".toList) ∧
      ∀ c ∈ rid, c ∈ b64Alphabet ∨ c = '=') := by
  have h := claim_C8_storage_key_format_and_uniqueness.2 ("landscape".toList) bytesA bytesB
    (by decide) (by decide) (by decide) (by decide)
  exact ⟨h.2 (by decide), h.1⟩

/-- C9: the persisted pointer is exactly `bucket ++ "," ++ key`, and for
every bucket and key containing no comma the decoding in
`dbVideoToSignedVideo` recovers exactly that bucket and key: splitting
on `','` yields the original pair, and the signer is invoked on
precisely the stored pair. -/
theorem claim_C9_pointer_roundtrip :
    ∀ (bucket key : GoStr) (v : Video) (signer : GoStr → GoStr → Option GoStr)
      (u : GoStr),
      ',' ∉ bucket → ',' ∉ key →
      (splitComma (encodePointer bucket key) = [bucket, key] ∧
       (signer bucket key = some u →
        dbVideoToSignedVideo signer (setVideoURL v (encodePointer bucket key)) =
          (setVideoURL v u, false))) := by
  intro bucket key v signer u hb hk
  have hs := splitComma_encodePointer bucket key hb hk
  refine ⟨hs, fun hsig => ?_⟩
  unfold dbVideoToSignedVideo setVideoURL
  simp [hs, hsig]

/-- Witness for C9 at a concrete bucket and key without commas. -/
theorem claim_C9_pointer_roundtrip_witness :
    splitComma (encodePointer ("tubely-bucket".toList) ("landscape/vid.mp4".toList)) =
      ["tubely-bucket".toList, "landscape/vid.mp4".toList] ∧
    dbVideoToSignedVideo (fun _ _ => some ("signed-url".toList))
        (setVideoURL { id := 1, userID := 7, videoURL := none }
          (encodePointer ("tubely-bucket".toList) ("landscape/vid.mp4".toList))) =
      (setVideoURL { id := 1, userID := 7, videoURL := none } ("signed-url".toList),
       false) := by
  have h := claim_C9_pointer_roundtrip ("tubely-bucket".toList)
    ("landscape/vid.mp4".toList) { id := 1, userID := 7, videoURL := none }
    (fun _ _ => some ("signed-url".toList)) ("signed-url".toList)
    (by decide) (by decide)
  exact ⟨h.1, h.2 rfl⟩

/-- C10: when the record's playback pointer is nil, or does not split on
`','` into exactly two parts, `dbVideoToSignedVideo` returns the input
record unchanged with a nil error for every signer — no signing is
attempted and the malformed pointer is not surfaced as a failure
(lines 218–228 log and return `video, nil`). -/
theorem claim_C10_malformed_pointer_passthrough :
    ∀ (signer : GoStr → GoStr → Option GoStr) (v : Video),
      (v.videoURL = none → dbVideoToSignedVideo signer v = (v, false)) ∧
      (∀ url, v.videoURL = some url → (splitComma url).length ≠ 2 →
        dbVideoToSignedVideo signer v = (v, false)) := by
  intro signer v
  constructor
  · intro h
    unfold dbVideoToSignedVideo
    rw [h]
  · intro url hu hlen
    unfold dbVideoToSignedVideo
    rw [hu]
    dsimp only
    rw [if_neg hlen]

/-- The presigner used by the concrete witnesses. -/
def signerTest : GoStr → GoStr → Option GoStr := fun _ _ => some ("signed-url".toList)

/-- Witness for C10 at a nil pointer and at the comma-free pointer
`"abc"` (which splits into one part, not two). -/
theorem claim_C10_malformed_pointer_passthrough_witness :
    dbVideoToSignedVideo signerTest { id := 1, userID := 7, videoURL := none } =
      ({ id := 1, userID := 7, videoURL := none }, false) ∧
    dbVideoToSignedVideo signerTest { id := 1, userID := 7, videoURL := some ("abc".toList) } =
      ({ id := 1, userID := 7, videoURL := some ("abc".toList) }, false) :=
  ⟨(claim_C10_malformed_pointer_passthrough signerTest _).1 rfl,
   (claim_C10_malformed_pointer_passthrough signerTest _).2 ("abc".toList) rfl (by decide)⟩
